import Mathlib

/-!
Shallow embedding of the Keccak-p[1600] permutation engines of this
repository (src/src/crypto/randomx/panthera/KeccakP-1600-avx2.c,
KeccakP-1600-avx512.c, KeccakP-1600-optimized.c) and proofs about them.

A state is a list of 25 natural numbers, each below 2^64, lane (x,y) at
linear index y*5+x, exactly as the C code indexes its uint64_t state[25].
Vector intrinsics are embedded by their element-wise semantics: a
_mm256_set_epi64x / _mm512_set_epi64 call lists its arguments from the
highest element down to element 0, permutexvar picks source elements by
index, and the horizontal-XOR helpers are the exact XOR trees the
intrinsic sequences compute.
-/

/-- 2^64, the modulus of C uint64_t arithmetic. -/
def M64 : Nat := 2 ^ 64

/-- Read lane `i` of a 25-lane state (out-of-range reads give 0). -/
def lane (s : List Nat) (i : Nat) : Nat := s.getD i 0

/-- 64-bit bitwise complement `~x` of C, for `x < 2^64`. -/
def not64 (x : Nat) : Nat := x ^^^ (M64 - 1)

/-- `rotl64` from KeccakP-1600-avx2.c lines 110-143 (the identical function
appears in KeccakP-1600-avx512.c lines 102-135): a switch over the rotation
amounts the Keccak specification uses, each case computing
`(x << n) | (x >> (64 - n))` in uint64 arithmetic, with a generic fallback
normalizing `n` to `n & 63`. -/
def rotl64 (x : Nat) (n : Nat) : Nat :=
  if n = 0 then x
  else if n = 1 then ((x <<< 1) % M64) ||| (x >>> 63)
  else if n = 2 then ((x <<< 2) % M64) ||| (x >>> 62)
  else if n = 3 then ((x <<< 3) % M64) ||| (x >>> 61)
  else if n = 6 then ((x <<< 6) % M64) ||| (x >>> 58)
  else if n = 8 then ((x <<< 8) % M64) ||| (x >>> 56)
  else if n = 10 then ((x <<< 10) % M64) ||| (x >>> 54)
  else if n = 14 then ((x <<< 14) % M64) ||| (x >>> 50)
  else if n = 15 then ((x <<< 15) % M64) ||| (x >>> 49)
  else if n = 18 then ((x <<< 18) % M64) ||| (x >>> 46)
  else if n = 20 then ((x <<< 20) % M64) ||| (x >>> 44)
  else if n = 21 then ((x <<< 21) % M64) ||| (x >>> 43)
  else if n = 25 then ((x <<< 25) % M64) ||| (x >>> 39)
  else if n = 27 then ((x <<< 27) % M64) ||| (x >>> 37)
  else if n = 28 then ((x <<< 28) % M64) ||| (x >>> 36)
  else if n = 36 then ((x <<< 36) % M64) ||| (x >>> 28)
  else if n = 39 then ((x <<< 39) % M64) ||| (x >>> 25)
  else if n = 41 then ((x <<< 41) % M64) ||| (x >>> 23)
  else if n = 43 then ((x <<< 43) % M64) ||| (x >>> 21)
  else if n = 44 then ((x <<< 44) % M64) ||| (x >>> 20)
  else if n = 45 then ((x <<< 45) % M64) ||| (x >>> 19)
  else if n = 55 then ((x <<< 55) % M64) ||| (x >>> 9)
  else if n = 56 then ((x <<< 56) % M64) ||| (x >>> 8)
  else if n = 61 then ((x <<< 61) % M64) ||| (x >>> 3)
  else if n = 62 then ((x <<< 62) % M64) ||| (x >>> 2)
  else if n = 63 then ((x <<< 63) % M64) ||| (x >>> 1)
  else ((x <<< (n &&& 63)) % M64) ||| (x >>> (64 - (n &&& 63)))

/-- The generic-fallback rotate formula, the `default` branch of `rotl64`. -/
def rotl64_generic (x : Nat) (n : Nat) : Nat :=
  ((x <<< (n &&& 63)) % M64) ||| (x >>> (64 - (n &&& 63)))

/-- `KeccakF1600RoundConstants`, identical in both engine files. -/
def KeccakF1600RoundConstants : List Nat :=
  [0x0000000000000001, 0x0000000000008082, 0x800000000000808a, 0x8000000080008000,
   0x000000000000808b, 0x0000000080000001, 0x8000000080008081, 0x8000000000008009,
   0x000000000000008a, 0x0000000000000088, 0x0000000080008009, 0x000000008000000a,
   0x000000008000808b, 0x800000000000008b, 0x8000000000008089, 0x8000000000008003,
   0x8000000000008002, 0x8000000000000080, 0x000000000000800a, 0x800000008000000a,
   0x8000000080008081, 0x8000000000008080, 0x0000000080000001, 0x8000000080008008]

/-- Round constant at index `i`. -/
def rc (i : Nat) : Nat := KeccakF1600RoundConstants.getD i 0

/-- `rhotates`, the rho rotation offsets table, identical in both engine files. -/
def rhotates : List Nat :=
  [0, 1, 62, 28, 27] ++ [36, 44, 6, 55, 20] ++ [3, 10, 43, 25, 39] ++
  [41, 45, 15, 21, 8] ++ [18, 2, 61, 56, 14]

/-- `pi_lane_map`, the pi destination-index table, identical in both engine files. -/
def pi_lane_map : List Nat :=
  [0, 10, 20, 5, 15, 16, 1, 11, 21, 6, 7, 17, 2, 12, 22, 23, 8, 18, 3, 13, 14, 24, 9, 19, 4]

/-- The all-zero 25-lane (200-byte) state. -/
def zeroState : List Nat := List.replicate 25 0

/-- A state with a single lane `i` set to 1. -/
def onehot25 (i : Nat) : List Nat := (List.replicate 25 0).set i 1

/-! ## AVX2 engine (KeccakP-1600-avx2.c) -/

/-- `mm256_horizontal_xor_epi64` (lines 146-150): XOR-reduce the four 64-bit
elements of a 256-bit vector by two permute-and-XOR butterflies; the value
extracted at element 0 is `(e0 ^ e2) ^ (e1 ^ e3)`. -/
def mm256_horizontal_xor (e0 e1 e2 e3 : Nat) : Nat :=
  (e0 ^^^ e2) ^^^ (e1 ^^^ e3)

/-- The column value `c[x]` computed by `theta_step_avx2` (lines 153-174):
the column vector is `set(state[x+20], state[x+15], state[x+10], state[x+5])`,
each element is XORed with the broadcast `state[x]`, and the four elements are
horizontally XORed.  (Because `state[x]` enters all four elements of a 4-way
XOR reduction, it cancels out of the result.) -/
def theta_c_avx2 (s : List Nat) (x : Nat) : Nat :=
  mm256_horizontal_xor
    (lane s (x + 5) ^^^ lane s x) (lane s (x + 10) ^^^ lane s x)
    (lane s (x + 15) ^^^ lane s x) (lane s (x + 20) ^^^ lane s x)

/-- `d[x] = c[(x+4) % 5] ^ rotl64(c[(x+1) % 5], 1)`, the five `D_CALC`
instantiations of `theta_step_avx2` (lines 177-183). -/
def theta_d_avx2 (s : List Nat) (x : Nat) : Nat :=
  theta_c_avx2 s ((x + 4) % 5) ^^^ rotl64 (theta_c_avx2 s ((x + 1) % 5)) 1

/-- The theta application of `KeccakP1600_Round_avx2` (lines 217-240): lanes
0-15 are XORed with d-values assembled by `_mm256_set_epi64x` (lanes 0-3 get
d0..d3, lanes 4-7 get d4,d0,d1,d2, lanes 8-11 get d3,d4,d0,d1, lanes 12-15
get d2,d3,d4,d0) and lanes 16-24 by the unrolled `THETA_TAIL` macros; every
lane `i` receives `d[i % 5]`. -/
def theta_apply_avx2 (s : List Nat) : List Nat :=
  let d0 := theta_d_avx2 s 0
  let d1 := theta_d_avx2 s 1
  let d2 := theta_d_avx2 s 2
  let d3 := theta_d_avx2 s 3
  let d4 := theta_d_avx2 s 4
  [lane s 0 ^^^ d0, lane s 1 ^^^ d1, lane s 2 ^^^ d2, lane s 3 ^^^ d3,
   lane s 4 ^^^ d4, lane s 5 ^^^ d0, lane s 6 ^^^ d1, lane s 7 ^^^ d2,
   lane s 8 ^^^ d3, lane s 9 ^^^ d4, lane s 10 ^^^ d0, lane s 11 ^^^ d1,
   lane s 12 ^^^ d2, lane s 13 ^^^ d3, lane s 14 ^^^ d4, lane s 15 ^^^ d0,
   lane s 16 ^^^ d1, lane s 17 ^^^ d2, lane s 18 ^^^ d3, lane s 19 ^^^ d4,
   lane s 20 ^^^ d0, lane s 21 ^^^ d1, lane s 22 ^^^ d2, lane s 23 ^^^ d3,
   lane s 24 ^^^ d4]

/-- The fully unrolled rho+pi sequence, `state[0] = temp[0]` followed by the
24 `RHO_PI_STEP(dest, src, rot)` lines (avx2 lines 253-287; the avx512 file's
`RHO_PI` lines 248-282 are the identical mapping).  Entry `dest` of the
result is `rotl64 temp[src] rot`. -/
def rho_pi_unrolled (t : List Nat) : List Nat :=
  [lane t 0,
   rotl64 (lane t 5) 36, rotl64 (lane t 10) 3, rotl64 (lane t 15) 41,
   rotl64 (lane t 20) 18,
   rotl64 (lane t 1) 1, rotl64 (lane t 6) 44, rotl64 (lane t 11) 10,
   rotl64 (lane t 16) 45, rotl64 (lane t 21) 2,
   rotl64 (lane t 2) 62, rotl64 (lane t 7) 6, rotl64 (lane t 12) 43,
   rotl64 (lane t 17) 15, rotl64 (lane t 22) 61,
   rotl64 (lane t 3) 28, rotl64 (lane t 8) 55, rotl64 (lane t 13) 25,
   rotl64 (lane t 18) 21, rotl64 (lane t 23) 56,
   rotl64 (lane t 4) 27, rotl64 (lane t 9) 20, rotl64 (lane t 14) 39,
   rotl64 (lane t 19) 8, rotl64 (lane t 24) 14]

/-- `chi_process_row` (avx2 lines 187-200) applied to one row `a0..a4`:
`state[rb+x] = a_x ^ ((~a_{x+1}) & a_{x+2})`, indices mod 5. -/
def chi_process_row (a0 a1 a2 a3 a4 : Nat) : List Nat :=
  [a0 ^^^ (not64 a1 &&& a2), a1 ^^^ (not64 a2 &&& a3), a2 ^^^ (not64 a3 &&& a4),
   a3 ^^^ (not64 a4 &&& a0), a4 ^^^ (not64 a0 &&& a1)]

/-- The chi step of `KeccakP1600_Round_avx2` (lines 291-295): the five rows
processed independently. -/
def chi_avx2 (t : List Nat) : List Nat :=
  chi_process_row (lane t 0) (lane t 1) (lane t 2) (lane t 3) (lane t 4) ++
  chi_process_row (lane t 5) (lane t 6) (lane t 7) (lane t 8) (lane t 9) ++
  chi_process_row (lane t 10) (lane t 11) (lane t 12) (lane t 13) (lane t 14) ++
  chi_process_row (lane t 15) (lane t 16) (lane t 17) (lane t 18) (lane t 19) ++
  chi_process_row (lane t 20) (lane t 21) (lane t 22) (lane t 23) (lane t 24)

/-- `KeccakP1600_Round_avx2` (lines 203-299): theta, fused rho+pi, chi, iota. -/
def KeccakP1600_Round_avx2 (s : List Nat) (rcv : Nat) : List Nat :=
  let u := chi_avx2 (rho_pi_unrolled (theta_apply_avx2 s))
  u.set 0 (lane u 0 ^^^ rcv)

/-- Apply the AVX2 round for each round-constant index in `idxs`, in order. -/
def applyRoundIndices_avx2 (s : List Nat) (idxs : List Nat) : List Nat :=
  idxs.foldl (fun st i => KeccakP1600_Round_avx2 st (rc i)) s

/-- `KeccakP1600_Permute_24rounds_avx2` (lines 303-340): the 24 unrolled
`KECCAK_ROUND(i)` calls with constants 0..23. -/
def KeccakP1600_Permute_24rounds_avx2 (s : List Nat) : List Nat :=
  let s := KeccakP1600_Round_avx2 s (rc 0)
  let s := KeccakP1600_Round_avx2 s (rc 1)
  let s := KeccakP1600_Round_avx2 s (rc 2)
  let s := KeccakP1600_Round_avx2 s (rc 3)
  let s := KeccakP1600_Round_avx2 s (rc 4)
  let s := KeccakP1600_Round_avx2 s (rc 5)
  let s := KeccakP1600_Round_avx2 s (rc 6)
  let s := KeccakP1600_Round_avx2 s (rc 7)
  let s := KeccakP1600_Round_avx2 s (rc 8)
  let s := KeccakP1600_Round_avx2 s (rc 9)
  let s := KeccakP1600_Round_avx2 s (rc 10)
  let s := KeccakP1600_Round_avx2 s (rc 11)
  let s := KeccakP1600_Round_avx2 s (rc 12)
  let s := KeccakP1600_Round_avx2 s (rc 13)
  let s := KeccakP1600_Round_avx2 s (rc 14)
  let s := KeccakP1600_Round_avx2 s (rc 15)
  let s := KeccakP1600_Round_avx2 s (rc 16)
  let s := KeccakP1600_Round_avx2 s (rc 17)
  let s := KeccakP1600_Round_avx2 s (rc 18)
  let s := KeccakP1600_Round_avx2 s (rc 19)
  let s := KeccakP1600_Round_avx2 s (rc 20)
  let s := KeccakP1600_Round_avx2 s (rc 21)
  let s := KeccakP1600_Round_avx2 s (rc 22)
  let s := KeccakP1600_Round_avx2 s (rc 23)
  s

/-- `KeccakP1600_Permute_12rounds_avx2` (lines 344-367): the 12 unrolled
`KECCAK_ROUND(i)` calls with constants `RoundConstants[i+12]`, i = 0..11. -/
def KeccakP1600_Permute_12rounds_avx2 (s : List Nat) : List Nat :=
  let s := KeccakP1600_Round_avx2 s (rc 12)
  let s := KeccakP1600_Round_avx2 s (rc 13)
  let s := KeccakP1600_Round_avx2 s (rc 14)
  let s := KeccakP1600_Round_avx2 s (rc 15)
  let s := KeccakP1600_Round_avx2 s (rc 16)
  let s := KeccakP1600_Round_avx2 s (rc 17)
  let s := KeccakP1600_Round_avx2 s (rc 18)
  let s := KeccakP1600_Round_avx2 s (rc 19)
  let s := KeccakP1600_Round_avx2 s (rc 20)
  let s := KeccakP1600_Round_avx2 s (rc 21)
  let s := KeccakP1600_Round_avx2 s (rc 22)
  let s := KeccakP1600_Round_avx2 s (rc 23)
  s

/-! ## AVX-512 engine (KeccakP-1600-avx512.c) -/

/-- `mm512_horizontal_xor_epi64` (lines 138-149): XOR-reduce the eight 64-bit
elements of a 512-bit vector by halving extractions; the result is
`((e0 ^ e4) ^ (e2 ^ e6)) ^ ((e1 ^ e5) ^ (e3 ^ e7))`. -/
def mm512_horizontal_xor (e0 e1 e2 e3 e4 e5 e6 e7 : Nat) : Nat :=
  ((e0 ^^^ e4) ^^^ (e2 ^^^ e6)) ^^^ ((e1 ^^^ e5) ^^^ (e3 ^^^ e7))

/-- The column value `c[x]` computed by `theta_step_avx512` (lines 152-164):
the column vector is `set(0, 0, 0, state[x+20], state[x+15], state[x+10],
state[x+5], state[x])`, horizontally XORed; all five lanes of the column
enter the reduction once. -/
def theta_c_avx512 (s : List Nat) (x : Nat) : Nat :=
  mm512_horizontal_xor
    (lane s x) (lane s (x + 5)) (lane s (x + 10)) (lane s (x + 15)) (lane s (x + 20)) 0 0 0

/-- `d[x] = c[(x+4) % 5] ^ rotl64(c[(x+1) % 5], 1)`, the five `D_CALC`
instantiations of `theta_step_avx512` (lines 166-172). -/
def theta_d_avx512 (s : List Nat) (x : Nat) : Nat :=
  theta_c_avx512 s ((x + 4) % 5) ^^^ rotl64 (theta_c_avx512 s ((x + 1) % 5)) 1

/-- The theta application of `KeccakP1600_Round_avx512` (lines 210-235).
Lanes 0-7 are XORed with `_mm512_set_epi64(d[3], d[2], d[1], d[0], d[4],
d[3], d[2], d[1])`, whose element `i` is `d[(i+1) % 5]`; lanes 8-15 with
`_mm512_set_epi64(d[2], d[1], d[0], d[4], d[3], d[2], d[1], d[0])`, whose
element `i` is `d[i % 5]` so lane `8+i` receives `d[(8+i+2) % 5]`; lanes
16-24 with `d[i % 5]` by the unrolled `APPLY_D` macros. -/
def theta_apply_avx512 (s : List Nat) : List Nat :=
  let d0 := theta_d_avx512 s 0
  let d1 := theta_d_avx512 s 1
  let d2 := theta_d_avx512 s 2
  let d3 := theta_d_avx512 s 3
  let d4 := theta_d_avx512 s 4
  [lane s 0 ^^^ d1, lane s 1 ^^^ d2, lane s 2 ^^^ d3, lane s 3 ^^^ d4,
   lane s 4 ^^^ d0, lane s 5 ^^^ d1, lane s 6 ^^^ d2, lane s 7 ^^^ d3,
   lane s 8 ^^^ d0, lane s 9 ^^^ d1, lane s 10 ^^^ d2, lane s 11 ^^^ d3,
   lane s 12 ^^^ d4, lane s 13 ^^^ d0, lane s 14 ^^^ d1, lane s 15 ^^^ d2,
   lane s 16 ^^^ d1, lane s 17 ^^^ d2, lane s 18 ^^^ d3, lane s 19 ^^^ d4,
   lane s 20 ^^^ d0, lane s 21 ^^^ d1, lane s 22 ^^^ d2, lane s 23 ^^^ d3,
   lane s 24 ^^^ d4]

/-- `chi_process_row_avx512` (lines 176-194) applied to one row `a0..a4`.
The row vector has elements `(a0, a1, a2, a3, a4, 0, 0, 0)`;
`row_shifted1 = permutexvar(set(0,0,0,0, 3,2,1,5), row)` has elements
`(row[5], row[1], row[2], row[3], row[0]) = (0, a1, a2, a3, a0)` and
`row_shifted2 = permutexvar(set(0,0,0,0, 4,3,2,1), row)` has elements
`(row[1], row[2], row[3], row[4], row[0]) = (a1, a2, a3, a4, a0)`;
the masked store writes `a_i ^ (~shifted1_i & shifted2_i)` for i = 0..4. -/
def chi_process_row_avx512 (a0 a1 a2 a3 a4 : Nat) : List Nat :=
  [a0 ^^^ (not64 0 &&& a1),
   a1 ^^^ (not64 a1 &&& a2),
   a2 ^^^ (not64 a2 &&& a3),
   a3 ^^^ (not64 a3 &&& a4),
   a4 ^^^ (not64 a0 &&& a0)]

/-- The chi step of `KeccakP1600_Round_avx512` (lines 286-290): the five rows
processed independently. -/
def chi_avx512 (t : List Nat) : List Nat :=
  chi_process_row_avx512 (lane t 0) (lane t 1) (lane t 2) (lane t 3) (lane t 4) ++
  chi_process_row_avx512 (lane t 5) (lane t 6) (lane t 7) (lane t 8) (lane t 9) ++
  chi_process_row_avx512 (lane t 10) (lane t 11) (lane t 12) (lane t 13) (lane t 14) ++
  chi_process_row_avx512 (lane t 15) (lane t 16) (lane t 17) (lane t 18) (lane t 19) ++
  chi_process_row_avx512 (lane t 20) (lane t 21) (lane t 22) (lane t 23) (lane t 24)

/-- `KeccakP1600_Round_avx512` (lines 197-294): theta, fused rho+pi (the
same unrolled `RHO_PI` mapping as the AVX2 file), chi, iota. -/
def KeccakP1600_Round_avx512 (s : List Nat) (rcv : Nat) : List Nat :=
  let u := chi_avx512 (rho_pi_unrolled (theta_apply_avx512 s))
  u.set 0 (lane u 0 ^^^ rcv)

/-- Apply the AVX-512 round for each round-constant index in `idxs`, in order. -/
def applyRoundIndices_avx512 (s : List Nat) (idxs : List Nat) : List Nat :=
  idxs.foldl (fun st i => KeccakP1600_Round_avx512 st (rc i)) s

/-- `KeccakP1600_Permute_24rounds_avx512` (lines 301-336): the 24 unrolled
`KECCAK_ROUND(i)` calls with constants 0..23. -/
def KeccakP1600_Permute_24rounds_avx512 (s : List Nat) : List Nat :=
  let s := KeccakP1600_Round_avx512 s (rc 0)
  let s := KeccakP1600_Round_avx512 s (rc 1)
  let s := KeccakP1600_Round_avx512 s (rc 2)
  let s := KeccakP1600_Round_avx512 s (rc 3)
  let s := KeccakP1600_Round_avx512 s (rc 4)
  let s := KeccakP1600_Round_avx512 s (rc 5)
  let s := KeccakP1600_Round_avx512 s (rc 6)
  let s := KeccakP1600_Round_avx512 s (rc 7)
  let s := KeccakP1600_Round_avx512 s (rc 8)
  let s := KeccakP1600_Round_avx512 s (rc 9)
  let s := KeccakP1600_Round_avx512 s (rc 10)
  let s := KeccakP1600_Round_avx512 s (rc 11)
  let s := KeccakP1600_Round_avx512 s (rc 12)
  let s := KeccakP1600_Round_avx512 s (rc 13)
  let s := KeccakP1600_Round_avx512 s (rc 14)
  let s := KeccakP1600_Round_avx512 s (rc 15)
  let s := KeccakP1600_Round_avx512 s (rc 16)
  let s := KeccakP1600_Round_avx512 s (rc 17)
  let s := KeccakP1600_Round_avx512 s (rc 18)
  let s := KeccakP1600_Round_avx512 s (rc 19)
  let s := KeccakP1600_Round_avx512 s (rc 20)
  let s := KeccakP1600_Round_avx512 s (rc 21)
  let s := KeccakP1600_Round_avx512 s (rc 22)
  let s := KeccakP1600_Round_avx512 s (rc 23)
  s

/-- `KeccakP1600_Permute_12rounds_avx512` (lines 340-359): the 12 unrolled
`KECCAK_ROUND(i)` calls with constants 12..23. -/
def KeccakP1600_Permute_12rounds_avx512 (s : List Nat) : List Nat :=
  let s := KeccakP1600_Round_avx512 s (rc 12)
  let s := KeccakP1600_Round_avx512 s (rc 13)
  let s := KeccakP1600_Round_avx512 s (rc 14)
  let s := KeccakP1600_Round_avx512 s (rc 15)
  let s := KeccakP1600_Round_avx512 s (rc 16)
  let s := KeccakP1600_Round_avx512 s (rc 17)
  let s := KeccakP1600_Round_avx512 s (rc 18)
  let s := KeccakP1600_Round_avx512 s (rc 19)
  let s := KeccakP1600_Round_avx512 s (rc 20)
  let s := KeccakP1600_Round_avx512 s (rc 21)
  let s := KeccakP1600_Round_avx512 s (rc 22)
  let s := KeccakP1600_Round_avx512 s (rc 23)
  s

/-! ## Backend dispatcher (KeccakP-1600-optimized.c) -/

/-- The three permutation engines the dispatcher can bind
(KeccakP-1600-optimized.c lines 10-22). -/
inductive PermEngine where
  | reference : PermEngine
  | avx2 : PermEngine
  | avx512 : PermEngine
deriving DecidableEq

/-- The capability probes `supportsAVX2()` / `supportsAVX512()`, modelled as
fixed booleans reported by the hardware (lines 15, 21; the cpuid queries
themselves are a runtime hardware property). -/
structure CpuCaps where
  supportsAVX2 : Bool
  supportsAVX512 : Bool

/-- `init_permute_function` (lines 28-50): return unchanged if already
resolved, otherwise bind the reference engine, then overwrite with AVX2 if
supported, then overwrite with AVX-512 if supported. -/
def init_permute_function (caps : CpuCaps) (permute_fn : Option PermEngine) :
    Option PermEngine :=
  if permute_fn.isSome then permute_fn
  else
    let f := PermEngine.reference
    let f := if caps.supportsAVX2 then PermEngine.avx2 else f
    let f := if caps.supportsAVX512 then PermEngine.avx512 else f
    some f

/-- `KeccakP1600_Permute_24rounds` (lines 53-60): initialize the binding if
it is still NULL, then forward to the bound engine.  Returns the new
binding, the engine invoked, and whether the capability probe
(`init_permute_function`) ran on this call. -/
def KeccakP1600_Permute_24rounds_dispatch (caps : CpuCaps)
    (permute_fn : Option PermEngine) : Option PermEngine × PermEngine × Bool :=
  match permute_fn with
  | none =>
      let fn := init_permute_function caps none
      (fn, fn.getD PermEngine.reference, true)
  | some e => (some e, e, false)

/-! ## Specification-side definitions

The reference engine (KeccakP-1600-reference.c) is declared by the
dispatcher but its source is not part of this repository snapshot, so the
specification's round (spec section 4.1) is modelled here from the spec's
words and used as the comparison point for the refinement claims. -/

/-- Mathematical rotate-left of a 64-bit word by `n` bits (`0 ≤ n ≤ 63`,
`x < 2^64`): the high `64-n` bits move up by `n` places and the low bits
wrap to the top. -/
def rotlMath (x n : Nat) : Nat := (x % 2 ^ (64 - n)) * 2 ^ n + x / 2 ^ (64 - n)

/-- Modelled from the spec (section 4.1, theta): `C[x]` is the XOR of the
five lanes of column `x`, lanes `x, x+5, x+10, x+15, x+20`. -/
def theta_c_spec (s : List Nat) (x : Nat) : Nat :=
  lane s x ^^^ lane s (x + 5) ^^^ lane s (x + 10) ^^^ lane s (x + 15) ^^^ lane s (x + 20)

/-- Modelled from the spec (section 4.1, theta):
`D[x] = C[(x+4) mod 5] XOR rotate-left(C[(x+1) mod 5], 1)`. -/
def theta_d_spec (s : List Nat) (x : Nat) : Nat :=
  theta_c_spec s ((x + 4) % 5) ^^^ rotlMath (theta_c_spec s ((x + 1) % 5)) 1

/-- Modelled from the spec (section 4.1, theta): XOR `D[x]` into every lane
of column `x`, for all 25 lanes. -/
def theta_spec (s : List Nat) : List Nat :=
  List.ofFn fun i : Fin 25 => lane s i.val ^^^ theta_d_spec s (i.val % 5)

/-- Modelled from the spec (section 4.1, pi): source lane `(x, y)` at index
`x + 5y` moves to destination `(x' = y, y' = (2x + 3y) mod 5)`, index
`y + 5 * ((2x + 3y) mod 5)`. -/
def pi_dest_spec (i : Nat) : Nat :=
  i / 5 + 5 * ((2 * (i % 5) + 3 * (i / 5)) % 5)

/-- Modelled from the spec (section 4.1, rho then pi): rotate each lane left
by its `rhotates` offset, then move it to its pi destination. -/
def rho_then_pi_spec (t : List Nat) : List Nat :=
  (List.range 25).foldl
    (fun b i => b.set (pi_dest_spec i) (rotlMath (lane t i) (rhotates.getD i 0)))
    (List.replicate 25 0)

/-- Modelled from the spec (section 4.1, chi): for each row, replace lane
`(x, y)` with `lane(x,y) XOR ((NOT lane(x+1,y)) AND lane(x+2,y))`, indices
mod 5. -/
def chi_row_spec (a0 a1 a2 a3 a4 : Nat) : List Nat :=
  [a0 ^^^ (not64 a1 &&& a2), a1 ^^^ (not64 a2 &&& a3), a2 ^^^ (not64 a3 &&& a4),
   a3 ^^^ (not64 a4 &&& a0), a4 ^^^ (not64 a0 &&& a1)]

/-- Modelled from the spec: chi applied to the five rows of the state. -/
def chi_spec (t : List Nat) : List Nat :=
  chi_row_spec (lane t 0) (lane t 1) (lane t 2) (lane t 3) (lane t 4) ++
  chi_row_spec (lane t 5) (lane t 6) (lane t 7) (lane t 8) (lane t 9) ++
  chi_row_spec (lane t 10) (lane t 11) (lane t 12) (lane t 13) (lane t 14) ++
  chi_row_spec (lane t 15) (lane t 16) (lane t 17) (lane t 18) (lane t 19) ++
  chi_row_spec (lane t 20) (lane t 21) (lane t 22) (lane t 23) (lane t 24)

/-- Modelled from the spec (section 4.1): one Keccak-p[1600] round — theta,
rho, pi, chi, then iota XORing the round constant into lane (0,0). -/
def keccak_round_spec (s : List Nat) (rcv : Nat) : List Nat :=
  let u := chi_spec (rho_then_pi_spec (theta_spec s))
  u.set 0 (lane u 0 ^^^ rcv)

/-- Modelled from the spec: apply the spec round for each round-constant
index in `idxs`, in order. -/
def applyRoundIndices_spec (s : List Nat) (idxs : List Nat) : List Nat :=
  idxs.foldl (fun st i => keccak_round_spec st (rc i)) s

/-- The standard published Keccak-p[1600, 24] output for the all-zero input
state (the well-known Keccak-f[1600] known-answer test vector). -/
def keccakP1600_zeroKAT : List Nat :=
  [0xF1258F7940E1DDE7, 0x84D5CCF933C0478A, 0xD598261EA65AA9EE, 0xBD1547306F80494D,
   0x8B284E056253D057, 0xFF97A42D7F8E6FD4, 0x90FEE5A0A44647C4, 0x8C5BDA0CD6192E76,
   0xAD30A6F71B19059C, 0x30935AB7D08FFC64, 0xEB5AA93F2317D635, 0xA9A6E6260D712103,
   0x81A57C16DBCF555F, 0x43B831CD0347C826, 0x01F22F1A11A5569F, 0x05E5635A21D9AE61,
   0x64BEFEF28CC970F2, 0x613670957BC46611, 0xB87C5A554FD00ECB, 0x8C3EE88A1CCF32C8,
   0x940C7922AE3A2614, 0x1841F924A2C509E4, 0x16F53526E70465C2, 0x75F644E97F30A13B,
   0xEAF1FF7B5CECA249]

/-- The destination lane index realized by the unrolled rho+pi sequence for
source lane `i`: feed a state that is 1 at lane `i` and 0 elsewhere through
the unrolled sequence and locate the unique nonzero output lane (a rotation
of 1 is a power of two, never 0). -/
def rho_pi_destination (i : Nat) : Nat :=
  (rho_pi_unrolled (onehot25 i)).findIdx (fun v => v != 0)

/-- A preimage, under the AVX-512 round's (linear, invertible) theta and
rho+pi steps, of the pre-chi state that is 1 at bit 0 of lanes 2 and 4 and
zero elsewhere.  That pre-chi row (0, 0, 1, 0, 1) collides with
(0, 0, 1, 1, 1) under the AVX-512 engine's chi. -/
def collideA : List Nat :=
  [0x8001000000000000, 0x8001000000000000, 0x0000000000000000, 0x4000800000000000,
   0x2000400000000000,
   0x8001000000000000, 0x8001000000000000, 0x0000000000000000, 0x2000400000000000,
   0x8001000000000000,
   0xa001000000000000, 0x0000000000000000, 0x4000800000000000, 0x2000400000000000,
   0x8001000000000000,
   0x8001000000000000, 0x8001000000000000, 0x8001000000000000, 0x0000000000000000,
   0x4000800000000000,
   0x2000000000000000, 0x8001000000000000, 0x8001000000000000, 0x0000000000000000,
   0x4000800000000000]

/-- A preimage, under the same linear steps, of the pre-chi state that is 1
at bit 0 of lanes 2, 3 and 4: it differs from `collideA`'s pre-chi image
only at lane 3, yet the AVX-512 chi maps both rows to the same output. -/
def collideB : List Nat :=
  [0x8001000002000000, 0x8001000002000000, 0x0000000000000000, 0x4000800001000000,
   0x2000400000800000,
   0x8001000002000000, 0x8001000002000000, 0x0000000000000000, 0x2000400000800000,
   0x8001000002000000,
   0xa001000002000000, 0x0000000000000000, 0x4000800001000000, 0x2000400000800000,
   0x8001000002000000,
   0x8001000002800000, 0x8001000002000000, 0x8001000002000000, 0x0000000000000000,
   0x4000800001000000,
   0x2000000000800000, 0x8001000002000000, 0x8001000002000000, 0x0000000000000000,
   0x4000800001000000]

/-! ## Helper lemmas -/

set_option maxRecDepth 1000000
set_option maxHeartbeats 2000000

theorem two_pow_shift_lor (x k : Nat) (hx : x < 2 ^ 64) (hk : k ≤ 63) :
    ((x <<< k) % 2 ^ 64) ||| (x >>> (64 - k)) =
      (x % 2 ^ (64 - k)) * 2 ^ k + x / 2 ^ (64 - k) := by
  have hsplit : 2 ^ (64 - k) * 2 ^ k = 2 ^ 64 := by
    rw [← Nat.pow_add]
    congr 1
    omega
  have hb : x / 2 ^ (64 - k) < 2 ^ k := Nat.div_lt_of_lt_mul (by rw [hsplit]; exact hx)
  have ha : x % 2 ^ (64 - k) < 2 ^ (64 - k) := Nat.mod_lt _ (Nat.two_pow_pos _)
  have hmod : (x <<< k) % 2 ^ 64 = (x % 2 ^ (64 - k)) * 2 ^ k := by
    rw [Nat.shiftLeft_eq]
    calc x * 2 ^ k % 2 ^ 64
        = (2 ^ (64 - k) * (x / 2 ^ (64 - k)) + x % 2 ^ (64 - k)) * 2 ^ k % 2 ^ 64 := by
          rw [Nat.div_add_mod]
      _ = ((x % 2 ^ (64 - k)) * 2 ^ k + x / 2 ^ (64 - k) * (2 ^ (64 - k) * 2 ^ k)) % 2 ^ 64 := by
          ring_nf
      _ = ((x % 2 ^ (64 - k)) * 2 ^ k + x / 2 ^ (64 - k) * 2 ^ 64) % 2 ^ 64 := by
          rw [hsplit]
      _ = (x % 2 ^ (64 - k)) * 2 ^ k % 2 ^ 64 := Nat.add_mul_mod_self_right _ _ _
      _ = (x % 2 ^ (64 - k)) * 2 ^ k := by
          apply Nat.mod_eq_of_lt
          calc (x % 2 ^ (64 - k)) * 2 ^ k < 2 ^ (64 - k) * 2 ^ k :=
                Nat.mul_lt_mul_of_pos_right ha (Nat.two_pow_pos _)
            _ = 2 ^ 64 := hsplit
  rw [hmod, Nat.shiftRight_eq_div_pow]
  calc (x % 2 ^ (64 - k)) * 2 ^ k ||| x / 2 ^ (64 - k)
      = 2 ^ k * (x % 2 ^ (64 - k)) ||| x / 2 ^ (64 - k) := by rw [Nat.mul_comm]
    _ = 2 ^ k * (x % 2 ^ (64 - k)) + x / 2 ^ (64 - k) := (Nat.mul_add_lt_is_or hb _).symm
    _ = (x % 2 ^ (64 - k)) * 2 ^ k + x / 2 ^ (64 - k) := by rw [Nat.mul_comm]

theorem rotl64_generic_eq_rotlMath (x n : Nat) (hx : x < M64) (hn : n ≤ 63) :
    rotl64_generic x n = rotlMath x n := by
  have hand : n &&& 63 = n := by
    have h := Nat.and_pow_two_sub_one_eq_mod n 6
    norm_num at h
    rw [h]
    exact Nat.mod_eq_of_lt (by omega)
  unfold rotl64_generic rotlMath M64
  rw [hand]
  exact two_pow_shift_lor x n hx hn

theorem rotl64_eq_generic_of_pos (x n : Nat) (h1 : 0 < n) (h63 : n ≤ 63) :
    rotl64 x n = rotl64_generic x n := by
  interval_cases n <;> rfl

/-! ## Claim theorems -/

/-- Claim C9: for every 64-bit `x` and rotation amount `0 ≤ n ≤ 63`, the
`rotl64` dispatch returns the mathematical rotate-left of `x` by `n` bits,
every switch case agrees with the generic-fallback rotate formula, and
`rotl64 x 0 = x`. -/
theorem rotl64_matches_rotate (x n : Nat) (hx : x < M64) (hn : n ≤ 63) :
    rotl64 x n = rotlMath x n ∧ rotl64 x n = rotl64_generic x n ∧ rotl64 x 0 = x := by
  have hgen : rotl64 x n = rotl64_generic x n := by
    rcases Nat.eq_zero_or_pos n with h0 | hpos
    · subst h0
      show x = rotl64_generic x 0
      have h1 : (0 : Nat) &&& 63 = 0 := rfl
      have hx' : x < 18446744073709551616 := hx
      unfold rotl64_generic M64
      rw [h1, Nat.shiftLeft_eq, Nat.shiftRight_eq_div_pow]
      simp [Nat.mod_eq_of_lt hx', Nat.div_eq_of_lt hx']
    · exact rotl64_eq_generic_of_pos x n hpos hn
  exact ⟨hgen.trans (rotl64_generic_eq_rotlMath x n hx hn), hgen, rfl⟩

/-- Witness for claim C9 at `x = 7`, `n = 1`. -/
theorem rotl64_matches_rotate_witness :
    rotl64 7 1 = rotlMath 7 1 ∧ rotl64 7 1 = rotl64_generic 7 1 ∧ rotl64 7 0 = 7 :=
  rotl64_matches_rotate 7 1 (by norm_num [M64]) (by norm_num)

/-- Claim C6: the dispatcher starts unresolved; the first invocation binds
AVX-512 if supported, else AVX2 if supported, else the reference engine, and
probes on that call; once resolved, every invocation returns the same
binding, forwards to the bound engine, and performs no probe. -/
theorem dispatcher_resolves_and_stays (caps : CpuCaps) (st : Option PermEngine)
    (e : PermEngine) (hres : st = some e) :
    KeccakP1600_Permute_24rounds_dispatch caps none =
      (some (if caps.supportsAVX512 then PermEngine.avx512
             else if caps.supportsAVX2 then PermEngine.avx2 else PermEngine.reference),
       (if caps.supportsAVX512 then PermEngine.avx512
        else if caps.supportsAVX2 then PermEngine.avx2 else PermEngine.reference),
       true) ∧
    KeccakP1600_Permute_24rounds_dispatch caps st = (some e, e, false) := by
  subst hres
  obtain ⟨c2, c512⟩ := caps
  refine ⟨?_, rfl⟩
  cases c2 <;> cases c512 <;> rfl

/-- Witness for claim C6 on a processor supporting AVX2 but not AVX-512. -/
theorem dispatcher_resolves_and_stays_witness :
    KeccakP1600_Permute_24rounds_dispatch ⟨true, false⟩ none =
      (some PermEngine.avx2, PermEngine.avx2, true) ∧
    KeccakP1600_Permute_24rounds_dispatch ⟨true, false⟩ (some PermEngine.avx2) =
      (some PermEngine.avx2, PermEngine.avx2, false) :=
  dispatcher_resolves_and_stays ⟨true, false⟩ (some PermEngine.avx2) PermEngine.avx2 rfl

/-- Claim C7: for every input state, the 12-round entry points of both
engines apply exactly the rounds with constants 12..23 of the 24-entry
schedule, in order, and the 24-round entry points factor as those same last
12 rounds applied after the first 12. -/
theorem twelve_rounds_use_tail_constants (s : List Nat) :
    KeccakP1600_Permute_12rounds_avx2 s =
      applyRoundIndices_avx2 s [12, 13, 14, 15, 16, 17, 18, 19, 20, 21, 22, 23] ∧
    KeccakP1600_Permute_24rounds_avx2 s =
      KeccakP1600_Permute_12rounds_avx2
        (applyRoundIndices_avx2 s [0, 1, 2, 3, 4, 5, 6, 7, 8, 9, 10, 11]) ∧
    KeccakP1600_Permute_12rounds_avx512 s =
      applyRoundIndices_avx512 s [12, 13, 14, 15, 16, 17, 18, 19, 20, 21, 22, 23] ∧
    KeccakP1600_Permute_24rounds_avx512 s =
      KeccakP1600_Permute_12rounds_avx512
        (applyRoundIndices_avx512 s [0, 1, 2, 3, 4, 5, 6, 7, 8, 9, 10, 11]) :=
  ⟨rfl, rfl, rfl, rfl⟩

/-- Sanity anchor: the spec-modelled round applied 24 times to the all-zero
state reproduces the published Keccak-p[1600, 24] known-answer vector. -/
theorem spec_round_reproduces_zero_KAT :
    applyRoundIndices_spec zeroState
      [0, 1, 2, 3, 4, 5, 6, 7, 8, 9, 10, 11, 12, 13, 14, 15, 16, 17, 18, 19, 20, 21, 22, 23] =
      keccakP1600_zeroKAT := by decide

/-- Sanity anchor: the in-file `pi_lane_map` table is exactly the
specification's pi destination map. -/
theorem pi_lane_map_is_spec_pi :
    (List.ofFn fun i : Fin 25 => pi_dest_spec i.val) = pi_lane_map := by decide

/-- Claim C1 fails on the code: the AVX2 and AVX-512 engines produce
different outputs already on the all-zero input state, for both the
24-round and the 12-round entry points. -/
theorem vector_engines_disagree :
    KeccakP1600_Permute_24rounds_avx2 zeroState ≠
      KeccakP1600_Permute_24rounds_avx512 zeroState ∧
    KeccakP1600_Permute_12rounds_avx2 zeroState ≠
      KeccakP1600_Permute_12rounds_avx512 zeroState := by decide

/-- Claim C2 fails on the code: neither engine's 24-round permutation of the
all-zero state reproduces the published Keccak-p[1600, 24] test vector. -/
theorem engines_fail_zero_KAT :
    KeccakP1600_Permute_24rounds_avx2 zeroState ≠ keccakP1600_zeroKAT ∧
    KeccakP1600_Permute_24rounds_avx512 zeroState ≠ keccakP1600_zeroKAT := by decide

/-- Claim C3 fails on the code: on the scratch state with lane 1 = 1, the
unrolled rho+pi sequence of both engines stores the rotated value at lane 5,
while rho followed by the specification's pi places it at lane 10. -/
theorem fused_rho_pi_not_spec_rho_pi :
    rho_pi_unrolled (onehot25 1) ≠ rho_then_pi_spec (onehot25 1) ∧
    lane (rho_pi_unrolled (onehot25 1)) 5 = 2 ∧
    lane (rho_pi_unrolled (onehot25 1)) 10 = 0 ∧
    lane (rho_then_pi_spec (onehot25 1)) 10 = 2 := by decide

/-- Claim C4 fails on the code: on the state with lane 0 = 1, both engines'
theta steps differ from the specification's theta — the AVX2 column XOR
cancels the y = 0 lane (its C[0] is 0 where the spec's is 1), and the
AVX-512 engine XORs the d-values into lanes 0..15 misaligned by one or two
columns. -/
theorem theta_not_spec_theta :
    theta_apply_avx2 (onehot25 0) ≠ theta_spec (onehot25 0) ∧
    theta_apply_avx512 (onehot25 0) ≠ theta_spec (onehot25 0) ∧
    theta_c_avx2 (onehot25 0) 0 = 0 ∧
    theta_c_spec (onehot25 0) 0 = 1 := by decide

/-- Claim C5 fails on the code: on the row (0, 1, 0, 0, 0), the AVX-512 chi
writes 1 into lane 0 (its first shuffled operand is the vector's zero
element 5, so lane 0 becomes `a0 XOR a1`), while the specification's chi —
which the AVX2 row routine does implement — leaves lane 0 at 0. -/
theorem chi_avx512_not_spec_chi :
    chi_process_row_avx512 0 1 0 0 0 ≠ chi_row_spec 0 1 0 0 0 ∧
    lane (chi_process_row_avx512 0 1 0 0 0) 0 = 1 ∧
    lane (chi_row_spec 0 1 0 0 0) 0 = 0 ∧
    chi_process_row 0 1 0 0 0 = chi_row_spec 0 1 0 0 0 := by decide

/-- Claim C8 fails on the code: the AVX-512 24-round permutation maps the
two distinct states `collideA` and `collideB` to the same output, so it is
not injective. -/
theorem avx512_permutation_not_injective :
    collideA ≠ collideB ∧
    KeccakP1600_Permute_24rounds_avx512 collideA =
      KeccakP1600_Permute_24rounds_avx512 collideB := by decide

/-- Claim C10 fails on the code: the destination map realized by the
unrolled rho+pi steps is not the `pi_lane_map` table — source lane 1 is
stored to lane 5 by the unrolled code, while the table (and the Keccak
specification) sends it to lane 10. -/
theorem unrolled_dest_differs_from_pi_lane_map :
    (List.ofFn fun i : Fin 25 => rho_pi_destination i.val) ≠ pi_lane_map ∧
    rho_pi_destination 1 = 5 ∧
    pi_lane_map.getD 1 0 = 10 := by decide
